import Mathlib

/-!
Verification of the MamoraBot trading-signal engines against their
natural-language specification.

The JavaScript sources are embedded shallowly:

* JS numbers are modelled as exact rationals (`ℚ`).  Where the source can
  produce `NaN` or `±Infinity` (an unguarded division), the embedding uses
  the `JSNum` sum type together with `jsDiv`, mirroring IEEE division by
  zero at the value level.
* `Math.round x` is modelled as `⌊x + 1/2⌋` (`jsRound`), which is the JS
  semantics for finite arguments.
* `x.toFixed (2)` formatting is modelled by the rounded numeric value
  `jsRound (x * 100) / 100` (`roundTo2`); the decision records carry these
  numeric values rather than their string renderings.
* Wall-clock timestamps (`new Date ()`, `Date.now ()`) are omitted from the
  embedded records: they are the only non-deterministic fields.
* Fields holding JS objects that may be `undefined` are modelled as
  `Option`; property access on a possibly-`undefined` base is `jsGet`,
  which raises a modelled `TypeError` exactly when the base is absent.
-/

/-- The three trading actions produced by every engine in the repository. -/
inductive TradeAction where
  | BUY
  | SELL
  | HOLD
deriving DecidableEq, Repr

/-- JS `Math.round` on a finite number: round half towards `+∞`. -/
def jsRound (q : ℚ) : ℤ :=
  ⌊q + 1 / 2⌋

/-- Numeric content of JS `x.toFixed (2)`: `x` rounded to two decimals. -/
def roundTo2 (q : ℚ) : ℚ :=
  (jsRound (q * 100) : ℚ) / 100

/-- Numeric content of JS `x.toFixed (1)` as used for one-decimal rounding,
and of `Math.round (x * 10) / 10`. -/
def roundTo1 (q : ℚ) : ℚ :=
  (jsRound (q * 10) : ℚ) / 10

/-- A JS number that may be non-finite: the result type of an unguarded
division.  `num q` is a finite value; `nan`, `inf` and `negInf` are the
IEEE non-finite results. -/
inductive JSNum where
  | num (q : ℚ)
  | nan
  | inf
  | negInf
deriving DecidableEq, Repr

/-- JS division `a / b` on finite operands, including the IEEE behaviour at
`b = 0`: `0 / 0` is `NaN` and `a / 0` is `±Infinity` for `a ≠ 0`. -/
def jsDiv (a b : ℚ) : JSNum :=
  if b = 0 then
    if a = 0 then JSNum.nan
    else if 0 < a then JSNum.inf
    else JSNum.negInf
  else JSNum.num (a / b)

/-- Multiplication of a JS number by the positive constant `100`
(`NaN` and the infinities are preserved). -/
def jsMul100 : JSNum → JSNum
  | JSNum.num q => JSNum.num (q * 100)
  | JSNum.nan => JSNum.nan
  | JSNum.inf => JSNum.inf
  | JSNum.negInf => JSNum.negInf

/-- JS truthiness of a numeric field that may be absent: `undefined` and
`0` are falsy. -/
def jsTruthy : Option ℚ → Bool
  | none => false
  | some q => q != 0

/-- JS `x || 0` on a numeric field that may be absent. -/
def jsOrZero : Option ℚ → ℚ
  | none => 0
  | some q => q

namespace SmartDecisionEngine

/-!
Embedding of `SmartDecisionEngine` (src/unnamed/part_003), the dual-source
decision pipeline.
-/

/-- The indicator fields of one source that `analyzeTechnicalSignals` reads.
Each field may be absent (`undefined` in JS), and the source guards each
block with a truthiness test. -/
structure SDIndicators where
  rsi : Option ℚ
  macd : Option ℚ
  sma20 : Option ℚ
  currentPrice : Option ℚ
deriving DecidableEq, Repr

/-- `marketData` as consumed by `generateIntelligentSignal`. -/
structure MarketData where
  currentPrice : ℚ
  technicalIndicators : SDIndicators
deriving DecidableEq, Repr

/-- `pocketOptionData` as consumed by `generateIntelligentSignal`. -/
structure PocketData where
  price : ℚ
  indicators : SDIndicators
deriving DecidableEq, Repr

/-- One entry of the `signals` array built by `analyzeTechnicalSignals`. -/
structure SDSig where
  type : String
  value : ℚ
  agreement : Bool
deriving DecidableEq, Repr

/-- Accumulator for the three analysis blocks of `analyzeTechnicalSignals`
(`signals`, `factors`, bullish/bearish counters, agreement counter, total). -/
structure TAcc where
  signals : List SDSig
  factors : List String
  bullishCount : ℚ
  bearishCount : ℚ
  agreementCount : ℕ
  totalSignals : ℕ
deriving DecidableEq, Repr

/-- The record returned by `analyzeTechnicalSignals`. -/
structure TechResult where
  signals : List SDSig
  factors : List String
  bullishCount : ℚ
  bearishCount : ℚ
  agreement : ℚ
  totalSignals : ℕ
deriving DecidableEq, Repr

/-- RSI block of `analyzeTechnicalSignals` (part_003 lines 83-103). -/
def rsiBlock (mi pi : SDIndicators) (acc : TAcc) : TAcc :=
  if jsTruthy mi.rsi && jsTruthy pi.rsi then
    let marketRSI := jsOrZero mi.rsi
    let pocketRSI := jsOrZero pi.rsi
    let rsiSignal : ℚ :=
      if marketRSI < 30 ∧ pocketRSI < 35 then 1
      else if marketRSI > 70 ∧ pocketRSI > 65 then -1
      else 0
    let acc :=
      if marketRSI < 30 ∧ pocketRSI < 35 then
        { acc with bullishCount := acc.bullishCount + 1,
                   factors := acc.factors ++ ["RSI oversold in both sources"] }
      else if marketRSI > 70 ∧ pocketRSI > 65 then
        { acc with bearishCount := acc.bearishCount + 1,
                   factors := acc.factors ++ ["RSI overbought in both sources"] }
      else if (marketRSI < 30 ∧ pocketRSI > 35) ∨ (marketRSI > 70 ∧ pocketRSI < 65) then
        { acc with factors := acc.factors ++ ["RSI signals diverge between sources"] }
      else acc
    let agree := |marketRSI - pocketRSI| < 10
    { acc with
      signals := acc.signals ++ [⟨"RSI", rsiSignal, decide agree⟩],
      agreementCount := acc.agreementCount + (if agree then 1 else 0),
      totalSignals := acc.totalSignals + 1 }
  else acc

/-- MACD block of `analyzeTechnicalSignals` (part_003 lines 106-126). -/
def macdBlock (mi pi : SDIndicators) (acc : TAcc) : TAcc :=
  if jsTruthy mi.macd && jsTruthy pi.macd then
    let marketMACD := jsOrZero mi.macd
    let pocketMACD := jsOrZero pi.macd
    let macdSignal : ℚ :=
      if marketMACD > 0 ∧ pocketMACD > 0 then 1
      else if marketMACD < 0 ∧ pocketMACD < 0 then -1
      else 0
    let acc :=
      if marketMACD > 0 ∧ pocketMACD > 0 then
        { acc with bullishCount := acc.bullishCount + 1,
                   factors := acc.factors ++ ["MACD bullish in both sources"] }
      else if marketMACD < 0 ∧ pocketMACD < 0 then
        { acc with bearishCount := acc.bearishCount + 1,
                   factors := acc.factors ++ ["MACD bearish in both sources"] }
      else
        { acc with factors := acc.factors ++ ["MACD signals diverge between sources"] }
    let agree := (marketMACD > 0) = (pocketMACD > 0)
    { acc with
      signals := acc.signals ++ [⟨"MACD", macdSignal, decide agree⟩],
      agreementCount := acc.agreementCount + (if agree then 1 else 0),
      totalSignals := acc.totalSignals + 1 }
  else acc

/-- Moving-average block of `analyzeTechnicalSignals` (part_003
lines 129-152).  The source reads `currentPrice` from the indicator
objects with an `|| 0` default. -/
def smaBlock (mi pi : SDIndicators) (acc : TAcc) : TAcc :=
  if jsTruthy mi.sma20 && jsTruthy pi.sma20 then
    let marketPrice := jsOrZero mi.currentPrice
    let pocketPrice := jsOrZero pi.currentPrice
    let marketAboveSMA := marketPrice > jsOrZero mi.sma20
    let pocketAboveSMA := pocketPrice > jsOrZero pi.sma20
    let maSignal : ℚ :=
      if marketAboveSMA ∧ pocketAboveSMA then 1 / 2
      else if ¬marketAboveSMA ∧ ¬pocketAboveSMA then -(1 / 2)
      else 0
    let acc :=
      if marketAboveSMA ∧ pocketAboveSMA then
        { acc with bullishCount := acc.bullishCount + 1 / 2,
                   factors := acc.factors ++ ["Price above SMA(20) in both sources"] }
      else if ¬marketAboveSMA ∧ ¬pocketAboveSMA then
        { acc with bearishCount := acc.bearishCount + 1 / 2,
                   factors := acc.factors ++ ["Price below SMA(20) in both sources"] }
      else
        { acc with factors := acc.factors ++ ["SMA signals diverge between sources"] }
    let agree := marketAboveSMA = pocketAboveSMA
    { acc with
      signals := acc.signals ++ [⟨"SMA", maSignal, decide agree⟩],
      agreementCount := acc.agreementCount + (if agree then 1 else 0),
      totalSignals := acc.totalSignals + 1 }
  else acc

/-- `SmartDecisionEngine.analyzeTechnicalSignals` (part_003 lines 74-165):
runs the RSI, MACD and SMA comparison blocks and computes the overall
agreement ratio. -/
def analyzeTechnicalSignals (mi pi : SDIndicators) : TechResult :=
  let acc := smaBlock mi pi (macdBlock mi pi (rsiBlock mi pi ⟨[], [], 0, 0, 0, 0⟩))
  { signals := acc.signals
    factors := acc.factors
    bullishCount := acc.bullishCount
    bearishCount := acc.bearishCount
    agreement := if acc.totalSignals > 0 then (acc.agreementCount : ℚ) / acc.totalSignals else 0
    totalSignals := acc.totalSignals }

/-- `SmartDecisionEngine.calculateSignalStrength` (part_003 lines 168-172):
net bullish count over `totalSignals || 1`. -/
def calculateSignalStrength (signals : TechResult) : ℚ :=
  let netBullish := signals.bullishCount - signals.bearishCount
  let maxPossible : ℚ := if signals.totalSignals = 0 then 1 else signals.totalSignals
  netBullish / maxPossible

/-- `SmartDecisionEngine.determineAction` (part_003 lines 175-190): HOLD
whenever agreement is below the 0.6 threshold, otherwise a ±0.3 band on
the signal strength. -/
def determineAction (signalStrength agreement : ℚ) : TradeAction :=
  if agreement < 0.6 then TradeAction.HOLD
  else if signalStrength > 0.3 then TradeAction.BUY
  else if signalStrength < -0.3 then TradeAction.SELL
  else TradeAction.HOLD

/-- `SmartDecisionEngine.calculateFinalConfidence` (part_003
lines 193-210): multiplicative boosts for strength and agreement, a
discrepancy penalty above 2%, then a clamp into [0.1, 0.95]. -/
def calculateFinalConfidence (baseConfidence signalStrength agreement priceDiscrepancy : ℚ) : ℚ :=
  let confidence := baseConfidence
  let confidence := confidence * (1 + |signalStrength|)
  let confidence := confidence * (0.5 + agreement)
  let confidence := if priceDiscrepancy > 0.02 then confidence * (1 - priceDiscrepancy) else confidence
  max 0.1 (min 0.95 confidence)

/-- One-decimal rendering of a non-negative rational, the numeric content of
the `toFixed (1)` call in `generateReasoning`. -/
def jsToFixed1 (q : ℚ) : String :=
  let n := jsRound (q * 10)
  toString (n / 10) ++ "." ++ toString (n % 10).natAbs

/-- `SmartDecisionEngine.generateReasoning` (part_003 lines 213-249):
discrepancy commentary, agreement commentary, the collected factor
strings, and an action-specific closing statement, joined with periods. -/
def generateReasoning (signals : TechResult) (priceDiscrepancy : ℚ) (action : TradeAction) : String :=
  let reasons : List String := []
  let reasons :=
    if priceDiscrepancy > 0.02 then
      reasons ++ ["High price discrepancy (" ++ jsToFixed1 (priceDiscrepancy * 100) ++
        "%) between sources reduces confidence"]
    else if priceDiscrepancy < 0.01 then
      reasons ++ ["Low price discrepancy indicates good source alignment"]
    else reasons
  let reasons :=
    if signals.agreement > 0.8 then
      reasons ++ ["Strong agreement between market and Pocket Option indicators"]
    else if signals.agreement < 0.5 then
      reasons ++ ["Significant divergence between data sources suggests caution"]
    else reasons
  let reasons := reasons ++ signals.factors
  let closing :=
    match action with
    | TradeAction.BUY => "Technical indicators suggest potential upward movement"
    | TradeAction.SELL => "Technical indicators suggest potential downward movement"
    | TradeAction.HOLD => "Mixed or weak signals recommend waiting for clearer direction"
  String.intercalate ". " (reasons ++ [closing]) ++ "."

/-- The signal record returned by `generateIntelligentSignal`
(part_003 lines 51-64).  The wall-clock `timestamp` field is omitted. -/
structure SDOut where
  symbol : String
  action : TradeAction
  confidence : ℚ
  reasoning : String
  marketPrice : ℚ
  pocketOptionPrice : ℚ
  priceDiscrepancy : ℚ
  signalStrength : ℚ
  agreement : ℚ
  factorsConsidered : ℕ
  technicalFactors : List String
deriving DecidableEq, Repr

/-- `SmartDecisionEngine.createNeutralSignal` (part_003 lines 252-267):
the record returned for error cases, with `agreement = 0`, zero
discrepancy and confidence 0.5; it carries no degraded marker. -/
def createNeutralSignal (symbol reason : String) : SDOut :=
  { symbol := symbol
    action := TradeAction.HOLD
    confidence := 0.5
    reasoning := reason
    marketPrice := 0
    pocketOptionPrice := 0
    priceDiscrepancy := 0
    signalStrength := 0
    agreement := 0
    factorsConsidered := 0
    technicalFactors := [] }

/-- `SmartDecisionEngine.generateIntelligentSignal` (part_003
lines 15-71): falls back to `createNeutralSignal` when either source is
missing, otherwise runs the dual-source analysis.  The append to
`signalHistory` and the wall-clock timestamp are omitted: they do not
affect the returned record. -/
def generateIntelligentSignal (symbol : String) (marketData : Option MarketData)
    (pocketOptionData : Option PocketData) : SDOut :=
  match marketData, pocketOptionData with
  | some md, some pd =>
    let marketPrice := md.currentPrice
    let pocketPrice := pd.price
    let marketIndicators := md.technicalIndicators
    let pocketIndicators := pd.indicators
    let priceDiscrepancy := |marketPrice - pocketPrice| / marketPrice
    let baseConfidence := max 0.3 (1 - priceDiscrepancy * 5)
    let signals := analyzeTechnicalSignals marketIndicators pocketIndicators
    let signalStrength := calculateSignalStrength signals
    let action := determineAction signalStrength signals.agreement
    let confidence :=
      calculateFinalConfidence baseConfidence signalStrength signals.agreement priceDiscrepancy
    let reasoning := generateReasoning signals priceDiscrepancy action
    { symbol := symbol
      action := action
      confidence := confidence
      reasoning := reasoning
      marketPrice := marketPrice
      pocketOptionPrice := pocketPrice
      priceDiscrepancy := priceDiscrepancy * 100
      signalStrength := |signalStrength|
      agreement := signals.agreement
      factorsConsidered := signals.factors.length
      technicalFactors := signals.factors }
  | _, _ => createNeutralSignal symbol "Insufficient data"

end SmartDecisionEngine

namespace EnhancedTradingEngine

/-!
Embedding of `EnhancedTradingEngine`
(src/src/utils/enhancedTradingEngine.js): the indicator library, the
single-source signal analyzer, the dynamic-confidence calculator and the
entry/exit-zone calculator.

`calculateBollingerBands` and `calculateVolatility` apply `Math.sqrt`, so
their outputs are irrational in general; functions that consume them
(`analyzeSignal`, `calculateDynamicConfidence`, `calculateEntryExitZones`)
are embedded with those computed values as inputs, exactly as the source
passes them.
-/

/-- JS `list.slice (-n)` for `n ≥ 1`: the trailing `n` elements (the whole
list when it is shorter than `n`). -/
def lastSlice {α : Type} (l : List α) (n : ℕ) : List α :=
  l.drop (l.length - n)

/-- `EnhancedTradingEngine.calculateRSI` (lines 228-244).  Note that the
source performs no window-length validation: the trailing gains and
losses of whatever window it receives are divided by `period`
unconditionally, and an all-zero loss list yields 100. -/
def calculateRSI (prices : List ℚ) (period : ℕ) : ℚ :=
  let changes := List.zipWith (fun a b => b - a) prices prices.tail
  let gains := changes.map (fun c => if c > 0 then c else 0)
  let losses := changes.map (fun c => if c < 0 then -c else 0)
  let avgGain := (lastSlice gains period).sum / (period : ℚ)
  let avgLoss := (lastSlice losses period).sum / (period : ℚ)
  if avgLoss = 0 then 100
  else
    let rs := avgGain / avgLoss
    100 - 100 / (1 + rs)

/-- `EnhancedTradingEngine.calculateEMA` (lines 264-273): seeded with the
first price, recurrence over the rest.  The source would yield `NaN` on an
empty list (an `undefined` seed); it is never called with one, and the
embedding returns 0 there. -/
def calculateEMA (prices : List ℚ) (period : ℕ) : ℚ :=
  let multiplier : ℚ := 2 / ((period : ℚ) + 1)
  match prices with
  | [] => 0
  | p :: rest => rest.foldl (fun ema price => price * multiplier + ema * (1 - multiplier)) p

/-- The `{macd, signal, histogram}` record of `calculateMACD`. -/
structure MACDResult where
  macd : ℚ
  signal : ℚ
  histogram : ℚ
deriving DecidableEq, Repr

/-- `EnhancedTradingEngine.calculateMACD` (lines 246-257), exactly as
written: the signal line is `calculateEMA ([macd], 9)` — the EMA of the
one-element list holding the latest macd value. -/
def calculateMACD (prices : List ℚ) : MACDResult :=
  let ema12 := calculateEMA prices 12
  let ema26 := calculateEMA prices 26
  let macd := ema12 - ema26
  let signal := calculateEMA [macd] 9
  { macd := macd, signal := signal, histogram := macd - signal }

/-- `EnhancedTradingEngine.calculateSMA` (lines 259-262): mean of the
trailing `period` closes, dividing by the actual slice length. -/
def calculateSMA (prices : List ℚ) (period : ℕ) : ℚ :=
  let slice := lastSlice prices period
  slice.sum / (slice.length : ℚ)

/-- One OHLCV price bar; the `timestamp` field is omitted and `open` is
renamed `openPrice` (a Lean keyword). -/
structure Bar where
  openPrice : ℚ
  high : ℚ
  low : ℚ
  close : ℚ
  volume : ℚ
deriving DecidableEq, Repr

/-- `Math.min (...slice.map (d => d.low))`: the least low of the window. -/
def lowestLow (slice : List Bar) : Option ℚ :=
  match slice.map Bar.low with
  | [] => none
  | x :: xs => some (xs.foldl min x)

/-- `Math.max (...slice.map (d => d.high))`: the greatest high. -/
def highestHigh (slice : List Bar) : Option ℚ :=
  match slice.map Bar.high with
  | [] => none
  | x :: xs => some (xs.foldl max x)

/-- `EnhancedTradingEngine.calculateStochastic` (lines 288-295), exactly as
written: `((current - low) / (high - low)) * 100` with no guard on the
denominator, so a window whose greatest high equals its least low divides
by zero.  An empty series (an `undefined` last element in JS) is `NaN`. -/
def calculateStochastic (data : List Bar) (period : ℕ) : JSNum :=
  let slice := lastSlice data period
  match lowestLow slice, highestHigh slice, data.getLast? with
  | some low, some high, some lastBar => jsMul100 (jsDiv (lastBar.close - low) (high - low))
  | _, _, _ => JSNum.nan

/-- The `{upper, middle, lower}` Bollinger record (an input to the signal
analyzer; its computation applies `Math.sqrt`). -/
structure BollingerBands where
  upper : ℚ
  middle : ℚ
  lower : ℚ
deriving DecidableEq, Repr

/-- Volume trend labels produced by `analyzeVolume` (line 305). -/
inductive VolTrend where
  | increasing
  | decreasing
  | stable
deriving DecidableEq, Repr

/-- The `{current, average, trend}` record of `analyzeVolume`. -/
structure VolumeInfo where
  current : ℚ
  average : ℚ
  trend : VolTrend
deriving DecidableEq, Repr

/-- The indicator set assembled by `calculateTechnicalIndicators`
(lines 35-51) and consumed by `analyzeSignal` and
`calculateDynamicConfidence`. -/
structure ETIndicators where
  rsi : ℚ
  macd : MACDResult
  sma20 : ℚ
  sma50 : ℚ
  ema12 : ℚ
  ema26 : ℚ
  bollinger : BollingerBands
  stochastic : JSNum
  volume : VolumeInfo
  currentPrice : ℚ
deriving DecidableEq, Repr

/-- The record returned by `analyzeSignal` (lines 113-118). -/
structure SignalResult where
  type : TradeAction
  strength : ℚ
  factors : List String
  rawStrength : ℚ
deriving DecidableEq, Repr

/-- Accumulator of `analyzeSignal`: the mutable `signalStrength`,
`signalCount` and `signals` locals (lines 54-56). -/
structure SAcc where
  signalStrength : ℚ
  signalCount : ℕ
  signals : List String
deriving DecidableEq, Repr

/-- RSI rule of `analyzeSignal` (lines 59-67). -/
def rsiRule (indicators : ETIndicators) (acc : SAcc) : SAcc :=
  if indicators.rsi < 30 then
    { signalStrength := acc.signalStrength + 1, signalCount := acc.signalCount + 1,
      signals := acc.signals ++ ["RSI oversold"] }
  else if indicators.rsi > 70 then
    { signalStrength := acc.signalStrength - 1, signalCount := acc.signalCount + 1,
      signals := acc.signals ++ ["RSI overbought"] }
  else acc

/-- MACD rule of `analyzeSignal` (lines 70-78). -/
def macdRule (indicators : ETIndicators) (acc : SAcc) : SAcc :=
  if indicators.macd.histogram > 0 ∧ indicators.macd.macd > indicators.macd.signal then
    { signalStrength := acc.signalStrength + 1, signalCount := acc.signalCount + 1,
      signals := acc.signals ++ ["MACD bullish crossover"] }
  else if indicators.macd.histogram < 0 ∧ indicators.macd.macd < indicators.macd.signal then
    { signalStrength := acc.signalStrength - 1, signalCount := acc.signalCount + 1,
      signals := acc.signals ++ ["MACD bearish crossover"] }
  else acc

/-- Moving-average rule of `analyzeSignal` (lines 81-89). -/
def maRule (indicators : ETIndicators) (acc : SAcc) : SAcc :=
  if indicators.currentPrice > indicators.sma20 ∧ indicators.sma20 > indicators.sma50 then
    { signalStrength := acc.signalStrength + 0.5, signalCount := acc.signalCount + 1,
      signals := acc.signals ++ ["Price above moving averages"] }
  else if indicators.currentPrice < indicators.sma20 ∧ indicators.sma20 < indicators.sma50 then
    { signalStrength := acc.signalStrength - 0.5, signalCount := acc.signalCount + 1,
      signals := acc.signals ++ ["Price below moving averages"] }
  else acc

/-- Bollinger rule of `analyzeSignal` (lines 92-100). -/
def bollingerRule (indicators : ETIndicators) (acc : SAcc) : SAcc :=
  if indicators.currentPrice < indicators.bollinger.lower then
    { signalStrength := acc.signalStrength + 0.3, signalCount := acc.signalCount + 1,
      signals := acc.signals ++ ["Price near lower Bollinger band"] }
  else if indicators.currentPrice > indicators.bollinger.upper then
    { signalStrength := acc.signalStrength - 0.3, signalCount := acc.signalCount + 1,
      signals := acc.signals ++ ["Price near upper Bollinger band"] }
  else acc

/-- `EnhancedTradingEngine.analyzeSignal` (lines 53-119): the four factor
rules accumulate a weighted strength and a count; the mean is compared
against the exclusive ±0.3 band. -/
def analyzeSignal (indicators : ETIndicators) : SignalResult :=
  let acc := bollingerRule indicators
    (maRule indicators (macdRule indicators (rsiRule indicators ⟨0, 0, []⟩)))
  let avgSignal : ℚ :=
    if acc.signalCount > 0 then acc.signalStrength / (acc.signalCount : ℚ) else 0
  let signalType :=
    if avgSignal > 0.3 then TradeAction.BUY
    else if avgSignal < -0.3 then TradeAction.SELL
    else TradeAction.HOLD
  { type := signalType, strength := |avgSignal|, factors := acc.signals,
    rawStrength := avgSignal }

/-- `EnhancedTradingEngine.calculateDynamicConfidence` (lines 121-144):
0.5 base, non-negative bonuses for signal strength, RSI extremity, MACD
histogram magnitude and increasing volume, then a clamp into
[0.1, 0.95]. -/
def calculateDynamicConfidence (signal : SignalResult) (indicators : ETIndicators) : ℚ :=
  let confidence : ℚ := 0.5
  let confidence := confidence + signal.strength * 0.3
  let confidence :=
    if indicators.rsi < 20 ∨ indicators.rsi > 80 then confidence + 0.15 else confidence
  let confidence :=
    if |indicators.macd.histogram| > 0.5 then confidence + 0.1 else confidence
  let confidence :=
    if indicators.volume.trend = VolTrend.increasing then confidence + 0.1 else confidence
  max 0.1 (min 0.95 confidence)

/-- The `confidence` field of the record returned by
`generateStructuredSignal` (lines 15-33): `Math.round (confidence * 100)`
of the dynamic confidence of the analyzed signal, as a function of the
indicator set computed at line 16. -/
def structuredSignalConfidencePct (indicators : ETIndicators) : ℤ :=
  jsRound (calculateDynamicConfidence (analyzeSignal indicators) indicators * 100)

/-- The numeric contents of the zone record of `calculateEntryExitZones`
(lines 146-171): all four prices are reported through `toFixed (2)`. -/
structure Zones where
  entryLow : ℚ
  entryHigh : ℚ
  target : ℚ
  stopLoss : ℚ
deriving DecidableEq, Repr

/-- `EnhancedTradingEngine.calculateEntryExitZones` (lines 146-171), with
the current price (the last close, line 147) and the volatility (a
standard deviation, line 148, hence non-negative) as inputs. -/
def calculateEntryExitZones (currentPrice volatility : ℚ) (signalType : TradeAction) : Zones :=
  match signalType with
  | TradeAction.BUY =>
    { entryLow := roundTo2 (currentPrice * (1 - volatility * 0.5))
      entryHigh := roundTo2 (currentPrice * (1 + volatility * 0.2))
      target := roundTo2 (currentPrice * (1 + volatility * 2))
      stopLoss := roundTo2 (currentPrice * (1 - volatility * 1.5)) }
  | TradeAction.SELL =>
    { entryLow := roundTo2 (currentPrice * (1 - volatility * 0.2))
      entryHigh := roundTo2 (currentPrice * (1 + volatility * 0.5))
      target := roundTo2 (currentPrice * (1 - volatility * 2))
      stopLoss := roundTo2 (currentPrice * (1 + volatility * 1.5)) }
  | TradeAction.HOLD =>
    { entryLow := roundTo2 (currentPrice * 0.995)
      entryHigh := roundTo2 (currentPrice * 1.005)
      target := roundTo2 currentPrice
      stopLoss := roundTo2 currentPrice }

end EnhancedTradingEngine

namespace AdvancedTradingAI

/-!
Embedding of `AdvancedTradingAI` (src/src/utils/advancedTradingAI.js).
Many of its helpers are literal constant stubs in the source
(lines 468-481); they are embedded as the same constants.  The mutable
trade history, `localStorage` persistence, `console.error` logging and
wall-clock timestamps are omitted; `getRecentPerformance`, which reads the
history and the clock, is abstracted as the `recentPerformance` input.
A JS property access on a possibly-`undefined` base is `jsGet`, which
raises the modelled `TypeError` exactly when the base is absent.
-/

/-- The modelled JS exception raised by a property access on `undefined`. -/
inductive JsError where
  | typeError
deriving DecidableEq, Repr

/-- Property access on a possibly-`undefined` JS object. -/
def jsGet {α : Type} : Option α → Except JsError α
  | none => Except.error JsError.typeError
  | some a => Except.ok a

/-- The indicator fields of one source that this engine reads. -/
structure TI9 where
  rsi : ℚ
  macd : ℚ
  volumeMA : ℚ
deriving DecidableEq, Repr

/-- `marketData` as consumed by `generateTradeRecommendation`. -/
structure MD9 where
  currentPrice : ℚ
  volume : ℚ
  technicalIndicators : TI9
deriving DecidableEq, Repr

/-- `pocketOptionData` as consumed by `generateTradeRecommendation`. -/
structure PD9 where
  price : ℚ
  indicators : TI9
deriving DecidableEq, Repr

/-- Result of the `analyzePriceAction` stub (line 468). -/
structure PriceAction where
  trend : String
  strength : ℚ
deriving DecidableEq, Repr

/-- Result of the `analyzeVolume` stub (line 469). -/
structure VolumeAnalysis where
  relative : JSNum
  trend : String
deriving DecidableEq, Repr

/-- `analyzePriceAction` (line 468), a constant stub in the source. -/
def analyzePriceAction (_price : ℚ) (_indicators : TI9) : PriceAction :=
  { trend := "neutral", strength := 0.5 }

/-- `analyzeVolume` (line 469): `{relative: volume / volumeMA, trend: 'normal'}`. -/
def analyzeVolume (volume volumeMA : ℚ) : VolumeAnalysis :=
  { relative := jsDiv volume volumeMA, trend := "normal" }

/-- `calculateVolatility` (line 470), a constant stub in the source. -/
def calculateVolatility (_indicators : TI9) : ℚ := 0.02

/-- `calculateTrendStrength` (line 471), a constant stub in the source. -/
def calculateTrendStrength (_indicators : TI9) : ℚ := 0.5

/-- `calculateSourceAgreement` (line 472), a constant stub in the source. -/
def calculateSourceAgreement (_market _pocket : TI9) : ℚ := 0.8

/-- `calculateMarketSentiment` (line 473), a constant stub in the source. -/
def calculateMarketSentiment (_indicators : TI9) (_priceAction : PriceAction) : String :=
  "neutral"

/-- The record returned by `analyzeMarketConditions` (lines 78-87); the
wall-clock `timestamp` field is omitted. -/
structure MarketAnalysis9 where
  priceAction : PriceAction
  volumeAnalysis : VolumeAnalysis
  volatility : ℚ
  trendStrength : ℚ
  sourceAgreement : ℚ
  sentiment : String
deriving DecidableEq, Repr

/-- `AdvancedTradingAI.analyzeMarketConditions` (lines 56-87): the property
accesses on lines 57-58 raise a `TypeError` when either input is
`undefined`; the rest is assembled from the helper stubs. -/
def analyzeMarketConditions (marketData : Option MD9) (pocketOptionData : Option PD9) :
    Except JsError MarketAnalysis9 := do
  let md ← jsGet marketData
  let market := md.technicalIndicators
  let pd ← jsGet pocketOptionData
  let pocket := pd.indicators
  let priceAction := analyzePriceAction md.currentPrice market
  let volumeAnalysis := analyzeVolume md.volume market.volumeMA
  let volatility := calculateVolatility market
  let trendStrength := calculateTrendStrength market
  let sourceAgreement := calculateSourceAgreement market pocket
  let sentiment := calculateMarketSentiment market priceAction
  pure { priceAction := priceAction, volumeAnalysis := volumeAnalysis,
         volatility := volatility, trendStrength := trendStrength,
         sourceAgreement := sourceAgreement, sentiment := sentiment }

/-- The `{signal, value, agreement}` record of `analyzeRSI` (line 359). -/
structure RSISig where
  signal : ℚ
  value : ℚ
  agreement : Bool
deriving DecidableEq, Repr

/-- The `{signal, value, agreement}` record of `analyzeMacd` (line 371). -/
structure MACDSig where
  signal : ℚ
  value : ℚ
  agreement : Bool
deriving DecidableEq, Repr

/-- The `{signal: 0}` records returned by the stub analyzers
(lines 474-478). -/
structure StubSig where
  signal : ℚ
deriving DecidableEq, Repr

/-- `AdvancedTradingAI.analyzeRSI` (lines 352-360). -/
def analyzeRSI (marketRSI pocketRSI : ℚ) : RSISig :=
  let avgRSI := (marketRSI + pocketRSI) / 2
  let signal : ℚ := if avgRSI < 30 then 1 else if avgRSI > 70 then -1 else 0
  { signal := signal, value := avgRSI, agreement := decide (|marketRSI - pocketRSI| < 10) }

/-- `AdvancedTradingAI.analyzeMacd` (lines 362-372). -/
def analyzeMacd (marketIndicators pocketIndicators : TI9) : MACDSig :=
  let marketMACD := marketIndicators.macd
  let pocketMACD := pocketIndicators.macd
  let avgMACD := (marketMACD + pocketMACD) / 2
  let signal : ℚ := if avgMACD > 0 then 1 else if avgMACD < 0 then -1 else 0
  { signal := signal, value := avgMACD,
    agreement := decide ((marketMACD > 0) = (pocketMACD > 0)) }

/-- `analyzeMovingAverages` (line 474), a constant stub in the source. -/
def analyzeMovingAverages (_indicators : TI9) (_price : ℚ) : StubSig := ⟨0⟩

/-- `analyzeBollingerBands` (line 475), a constant stub in the source. -/
def analyzeBollingerBands (_indicators : TI9) (_price : ℚ) : StubSig := ⟨0⟩

/-- `analyzeStochastic` (line 476), a constant stub in the source. -/
def analyzeStochastic (_indicators : TI9) : StubSig := ⟨0⟩

/-- `analyzePricePattern` (line 477), a constant stub in the source. -/
def analyzePricePattern (_price : ℚ) : StubSig := ⟨0⟩

/-- `analyzeVolumeProfile` (line 478), a constant stub in the source. -/
def analyzeVolumeProfile (_volume _volumeMA : ℚ) : StubSig := ⟨0⟩

/-- The composite `{strength, direction}` of `calculateCompositeSignal`. -/
structure Composite where
  strength : ℚ
  direction : ℚ
deriving DecidableEq, Repr

/-- `AdvancedTradingAI.calculateCompositeSignal` (lines 374-389): at the
point of the call the signals object holds exactly the seven analyzer
results, each with a defined `signal` field, so the key iteration sums
those seven signals. -/
def calculateCompositeSignal (rsi : RSISig) (macd : MACDSig)
    (ma bb st pp vp : StubSig) : Composite :=
  let totalSignal :=
    rsi.signal + macd.signal + ma.signal + bb.signal + st.signal + pp.signal + vp.signal
  let signalCount : ℚ := 7
  let strength := if signalCount > 0 then |totalSignal / signalCount| else 0
  let direction : ℚ := if totalSignal > 0 then 1 else if totalSignal < 0 then -1 else 0
  { strength := strength, direction := direction }

/-- The signals record of `calculateAdvancedSignals` (lines 90-105). -/
structure Signals9 where
  rsi : RSISig
  macd : MACDSig
  movingAverages : StubSig
  bollingerBands : StubSig
  stochastic : StubSig
  pricePattern : StubSig
  volumeProfile : StubSig
  composite : Composite
deriving DecidableEq, Repr

/-- `AdvancedTradingAI.calculateAdvancedSignals` (lines 90-105): the
nested property accesses raise a `TypeError` when either input is
`undefined`. -/
def calculateAdvancedSignals (marketData : Option MD9) (pocketOptionData : Option PD9) :
    Except JsError Signals9 := do
  let md ← jsGet marketData
  let pd ← jsGet pocketOptionData
  let rsi := analyzeRSI md.technicalIndicators.rsi pd.indicators.rsi
  let macd := analyzeMacd md.technicalIndicators pd.indicators
  let movingAverages := analyzeMovingAverages md.technicalIndicators md.currentPrice
  let bollingerBands := analyzeBollingerBands md.technicalIndicators md.currentPrice
  let stochastic := analyzeStochastic md.technicalIndicators
  let pricePattern := analyzePricePattern md.currentPrice
  let volumeProfile := analyzeVolumeProfile md.volume md.technicalIndicators.volumeMA
  let composite :=
    calculateCompositeSignal rsi macd movingAverages bollingerBands stochastic
      pricePattern volumeProfile
  pure { rsi := rsi, macd := macd, movingAverages := movingAverages,
         bollingerBands := bollingerBands, stochastic := stochastic,
         pricePattern := pricePattern, volumeProfile := volumeProfile,
         composite := composite }

/-- The risk levels used as keys of `riskMultipliers` (line 214). -/
inductive RiskLevel where
  | low
  | medium
  | high
deriving DecidableEq, Repr

/-- The `riskMultipliers` lookup table (line 214). -/
def riskMultiplier : RiskLevel → ℚ
  | RiskLevel.low => 1.5
  | RiskLevel.medium => 1
  | RiskLevel.high => 0.5

/-- A historical pattern as consumed by `applyMachineLearning`
(lines 118-122); `findSimilarPatterns` never produces one. -/
structure HistPattern where
  similarity : ℚ
  successRate : ℚ
  avgHoldTime : String
deriving DecidableEq, Repr

/-- `findSimilarPatterns` (line 479), a stub returning `null`. -/
def findSimilarPatterns (_symbol : String) (_analysis : MarketAnalysis9) : Option HistPattern :=
  none

/-- `assessRiskLevel` (line 480), a constant stub in the source. -/
def assessRiskLevel (_signals : Signals9) (_pattern : Option HistPattern) : RiskLevel :=
  RiskLevel.medium

/-- The record returned by `getRecentPerformance` (lines 433-447). -/
structure RecentPerformance where
  accuracy : ℚ
  totalTrades : ℕ
deriving DecidableEq, Repr

/-- The ML-insights record of `applyMachineLearning` (lines 109-115). -/
structure MLInsights where
  patternMatch : ℚ
  successProbability : ℚ
  riskLevel : RiskLevel
  recommendedHoldTime : String
  confidence : ℚ
deriving DecidableEq, Repr

/-- `AdvancedTradingAI.applyMachineLearning` (lines 108-136).
`getRecentPerformance` reads the mutable trade history and the wall
clock; its result is the `recentPerformance` input here. -/
def applyMachineLearning (recentPerformance : RecentPerformance) (signals : Signals9)
    (historicalPattern : Option HistPattern) : MLInsights :=
  let insights : MLInsights :=
    { patternMatch := 0, successProbability := 0.5, riskLevel := RiskLevel.medium,
      recommendedHoldTime := "2-4 hours", confidence := 0.5 }
  let insights :=
    match historicalPattern with
    | some p =>
      { insights with patternMatch := p.similarity, successProbability := p.successRate,
                      recommendedHoldTime := p.avgHoldTime }
    | none => insights
  let insights :=
    if recentPerformance.accuracy > 0.7 then
      { insights with confidence := insights.confidence * 1.2 }
    else if recentPerformance.accuracy < 0.4 then
      { insights with confidence := insights.confidence * 0.8 }
    else insights
  { insights with riskLevel := assessRiskLevel signals historicalPattern }

/-- The entry-timing record of `calculateOptimalEntry` (lines 198-209). -/
structure EntryTiming where
  bestTime : String
  window : String
deriving DecidableEq, Repr

/-- `AdvancedTradingAI.calculateOptimalEntry` (lines 198-209). -/
def calculateOptimalEntry (signals : Signals9) (_marketAnalysis : MarketAnalysis9) :
    EntryTiming :=
  if signals.composite.strength > 0.8 then { bestTime := "Now", window := "0-5 minutes" }
  else if signals.composite.strength > 0.6 then
    { bestTime := "Next 30 minutes", window := "15-60 minutes" }
  else { bestTime := "Wait for confirmation", window := "1-4 hours" }

/-- The position-size record of `calculatePositionSize` (lines 219-222). -/
structure PositionSize where
  percentage : ℤ
  amount : ℤ
deriving DecidableEq, Repr

/-- `AdvancedTradingAI.calculatePositionSize` (lines 212-223). -/
def calculatePositionSize (confidence : ℚ) (riskLevel : RiskLevel) : PositionSize :=
  let baseSize : ℚ := 0.1
  let adjustedSize := baseSize * confidence * riskMultiplier riskLevel
  let percentage := min (max adjustedSize 0.02) 0.25
  { percentage := jsRound (percentage * 100), amount := jsRound (percentage * 10000) }

/-- The risk-management record of `calculateRiskManagement`
(lines 243-247); the source's `ratio` field is named `rr` here. -/
structure RiskMgmt where
  stopLoss : ℚ
  takeProfit : ℚ
  rr : ℚ
deriving DecidableEq, Repr

/-- The stop-loss level of `calculateRiskManagement` before `toFixed`-style
rounding (lines 232, 235), as a function of the volatility multiplier. -/
def rawStopLoss (entryPrice : ℚ) (action : TradeAction) (vm : ℚ) : ℚ :=
  match action with
  | TradeAction.BUY => entryPrice * (1 - vm)
  | TradeAction.SELL => entryPrice * (1 + vm)
  | TradeAction.HOLD => 0

/-- The take-profit level of `calculateRiskManagement` before rounding
(lines 233, 236). -/
def rawTakeProfit (entryPrice : ℚ) (action : TradeAction) (vm : ℚ) : ℚ :=
  match action with
  | TradeAction.BUY => entryPrice * (1 + vm * 2)
  | TradeAction.SELL => entryPrice * (1 - vm * 2)
  | TradeAction.HOLD => 0

/-- `AdvancedTradingAI.calculateRiskManagement` (lines 226-248): a
volatility multiplier floored at 2%, stop/target levels per action, and
`ratio = |takeProfit − entry| / |entry − stopLoss|` computed on the
unrounded levels; HOLD short-circuits to all zeros (line 238). -/
def calculateRiskManagement (entryPrice : ℚ) (action : TradeAction) (volatility : ℚ) :
    RiskMgmt :=
  let volatilityMultiplier := max (volatility * 2) 0.02
  match action with
  | TradeAction.HOLD => { stopLoss := 0, takeProfit := 0, rr := 0 }
  | _ =>
    let stopLoss := rawStopLoss entryPrice action volatilityMultiplier
    let takeProfit := rawTakeProfit entryPrice action volatilityMultiplier
    let r := |takeProfit - entryPrice| / |entryPrice - stopLoss|
    { stopLoss := roundTo2 stopLoss, takeProfit := roundTo2 takeProfit, rr := roundTo1 r }

/-- `generateExitConditions` (lines 272-287). -/
def generateExitConditions (signals : Signals9) (duration : ℤ) : List String :=
  let conditions : List String := []
  let conditions :=
    if signals.rsi.signal ≠ 0 then
      conditions ++
        ["RSI " ++ (if signals.rsi.signal > 0 then "overbought" else "oversold") ++ " reversal"]
    else conditions
  let conditions :=
    if signals.macd.signal ≠ 0 then conditions ++ ["MACD signal line cross"] else conditions
  conditions ++ ["Time-based exit after " ++ toString duration ++ " hours",
                 "Stop loss or take profit hit"]

/-- The hold-time record of `estimateHoldTime` (lines 264-268). -/
structure HoldTime where
  duration : String
  strategy : String
  exitConditions : List String
deriving DecidableEq, Repr

/-- `AdvancedTradingAI.estimateHoldTime` (lines 251-269). -/
def estimateHoldTime (signals : Signals9) (_mlInsights : MLInsights) (trendStrength : ℚ) :
    HoldTime :=
  let baseDuration : ℚ := 4
  let baseDuration := if trendStrength > 0.8 then baseDuration * 2 else baseDuration
  let baseDuration := if trendStrength < 0.3 then baseDuration * 0.5 else baseDuration
  let baseDuration :=
    if signals.composite.strength > 0.8 then baseDuration * 1.5 else baseDuration
  let duration := jsRound baseDuration
  let strategy := if duration > 8 then "swing" else if duration > 2 then "day" else "scalp"
  { duration := toString duration ++ " hours", strategy := strategy ++ " trading",
    exitConditions := generateExitConditions signals duration }

/-- `AdvancedTradingAI.generateReasoning` (lines 324-349). -/
def generateReasoning (signals : Signals9) (mlInsights : MLInsights)
    (marketAnalysis : MarketAnalysis9) : String :=
  let reasons : List String := []
  let reasons :=
    if signals.rsi.signal > 0 then reasons ++ ["RSI indicates oversold conditions"] else reasons
  let reasons :=
    if signals.rsi.signal < 0 then reasons ++ ["RSI indicates overbought conditions"] else reasons
  let reasons :=
    if signals.macd.signal > 0 then reasons ++ ["MACD shows bullish momentum"] else reasons
  let reasons :=
    if signals.macd.signal < 0 then reasons ++ ["MACD shows bearish momentum"] else reasons
  let reasons :=
    if mlInsights.patternMatch > 0.7 then
      reasons ++ ["Strong pattern match (" ++ toString (jsRound (mlInsights.patternMatch * 100)) ++
        "%) with historical data"]
    else reasons
  let reasons :=
    if marketAnalysis.sourceAgreement > 0.8 then
      reasons ++ ["High agreement between market and Pocket Option data"]
    else reasons
  let reasons :=
    if marketAnalysis.trendStrength > 0.7 then
      reasons ++ ["Strong trend momentum detected"]
    else reasons
  String.intercalate ". " reasons ++ "."

/-- The recommendation record (lines 161-194 for the full shape,
lines 421-429 for the safe shape).  Fields that the safe recommendation
does not set are `Option` (`undefined` in JS); the source's
`riskRewardRatio` field is named `rr`, `positionSize` is
`positionSizePct`, and the wall-clock `timestamp` is omitted. -/
structure Rec9 where
  symbol : String
  action : TradeAction
  confidence : ℤ
  entryPrice : Option ℚ
  bestEntryTime : String
  entryWindow : Option String
  positionSizePct : Option ℤ
  positionAmount : Option ℤ
  stopLoss : Option ℚ
  takeProfit : Option ℚ
  rr : Option ℚ
  estimatedHoldTime : String
  exitStrategy : Option String
  signalStrength : Option ℤ
  riskLevel : RiskLevel
  patternMatch : Option ℤ
  reasoning : String
  successProbability : Option ℤ
deriving DecidableEq, Repr

/-- The constructor constant `confidenceThreshold = 0.75` (line 18). -/
def confidenceThreshold : ℚ := 0.75

/-- `AdvancedTradingAI.generateFinalRecommendation` (lines 139-195). -/
def generateFinalRecommendation (symbol : String) (marketAnalysis : MarketAnalysis9)
    (signals : Signals9) (mlInsights : MLInsights) (currentPrice : ℚ) : Rec9 :=
  let composite := signals.composite
  let confidence := min (mlInsights.confidence * marketAnalysis.sourceAgreement) 0.95
  let action :=
    if composite.strength > 0.6 ∧ confidence > confidenceThreshold then
      (if composite.direction > 0 then TradeAction.BUY else TradeAction.SELL)
    else TradeAction.HOLD
  let entryTiming := calculateOptimalEntry signals marketAnalysis
  let positionSize := calculatePositionSize confidence mlInsights.riskLevel
  let riskManagement := calculateRiskManagement currentPrice action marketAnalysis.volatility
  let holdTime := estimateHoldTime signals mlInsights marketAnalysis.trendStrength
  { symbol := symbol
    action := action
    confidence := jsRound (confidence * 100)
    entryPrice := some currentPrice
    bestEntryTime := entryTiming.bestTime
    entryWindow := some entryTiming.window
    positionSizePct := some positionSize.percentage
    positionAmount := some positionSize.amount
    stopLoss := some riskManagement.stopLoss
    takeProfit := some riskManagement.takeProfit
    rr := some riskManagement.rr
    estimatedHoldTime := holdTime.duration
    exitStrategy := some holdTime.strategy
    signalStrength := some (jsRound (composite.strength * 100))
    riskLevel := mlInsights.riskLevel
    patternMatch := some (jsRound (mlInsights.patternMatch * 100))
    reasoning := generateReasoning signals mlInsights marketAnalysis
    successProbability := some (jsRound (mlInsights.successProbability * 100)) }

/-- `AdvancedTradingAI.createSafeRecommendation` (lines 420-430): the
substitute decision returned when analysis fails. -/
def createSafeRecommendation (symbol : String) : Rec9 :=
  { symbol := symbol
    action := TradeAction.HOLD
    confidence := 50
    entryPrice := none
    bestEntryTime := "Wait"
    entryWindow := none
    positionSizePct := none
    positionAmount := none
    stopLoss := none
    takeProfit := none
    rr := none
    estimatedHoldTime := "N/A"
    exitStrategy := none
    signalStrength := none
    riskLevel := RiskLevel.high
    patternMatch := none
    reasoning := "Insufficient data for reliable analysis. Recommend waiting for clearer signals."
    successProbability := none }

/-- The `try` block of `generateTradeRecommendation` (lines 23-48):
the pipeline that may raise.  `storeForLearning` only appends to the
mutable history and does not affect the returned value. -/
def tradeRecommendationPipeline (symbol : String) (marketData : Option MD9)
    (pocketOptionData : Option PD9) (recentPerformance : RecentPerformance) :
    Except JsError Rec9 := do
  let marketAnalysis ← analyzeMarketConditions marketData pocketOptionData
  let historicalPattern := findSimilarPatterns symbol marketAnalysis
  let signals ← calculateAdvancedSignals marketData pocketOptionData
  let mlInsights := applyMachineLearning recentPerformance signals historicalPattern
  let md ← jsGet marketData
  pure (generateFinalRecommendation symbol marketAnalysis signals mlInsights md.currentPrice)

/-- `AdvancedTradingAI.generateTradeRecommendation` (lines 22-53): the
`catch` at lines 49-52 swallows any raised error and returns the safe
recommendation instead (the `console.error` log is omitted). -/
def generateTradeRecommendation (symbol : String) (marketData : Option MD9)
    (pocketOptionData : Option PD9) (recentPerformance : RecentPerformance) : Rec9 :=
  match tradeRecommendationPipeline symbol marketData pocketOptionData recentPerformance with
  | Except.ok r => r
  | Except.error _ => createSafeRecommendation symbol

end AdvancedTradingAI

section Helpers

/-- Lower and upper bounds of the shared `Math.max (0.1, Math.min (0.95, c))`
clamp used by both confidence calculators. -/
lemma clamp_bounds (c : ℚ) :
    1 / 10 ≤ max 0.1 (min 0.95 c) ∧ max 0.1 (min 0.95 c) ≤ 19 / 20 := by
  constructor
  · have : (1 / 10 : ℚ) = 0.1 := by norm_num
    rw [this]
    exact le_max_left _ _
  · exact max_le (by norm_num) (le_trans (min_le_left _ _) (by norm_num))

/-- `jsRound` is bounded by any integer bounds on its argument. -/
lemma jsRound_bounds {a : ℚ} {lo hi : ℤ} (h1 : (lo : ℚ) ≤ a) (h2 : a ≤ (hi : ℚ)) :
    lo ≤ jsRound a ∧ jsRound a ≤ hi := by
  unfold jsRound
  constructor
  · exact Int.le_floor.mpr (by linarith)
  · have h3 : ⌊a + 1 / 2⌋ < hi + 1 := by
      apply Int.floor_lt.mpr
      push_cast
      linarith
    omega

end Helpers

/-- **C1.** For every finite, valid input the final confidence of the
dual-source decision pipeline (`SmartDecisionEngine.calculateFinalConfidence`)
and of the structured-signal engine
(`EnhancedTradingEngine.calculateDynamicConfidence`) is clamped into
[0.1, 0.95], so `Math.round (confidence * 100)` — the reported
`confidencePct` — always lies in [10, 95]. -/
theorem final_confidence_clamped_pct_in_10_95
    (b s a d : ℚ) (sig : EnhancedTradingEngine.SignalResult)
    (ind : EnhancedTradingEngine.ETIndicators) :
    (1 / 10 ≤ SmartDecisionEngine.calculateFinalConfidence b s a d ∧
     SmartDecisionEngine.calculateFinalConfidence b s a d ≤ 19 / 20 ∧
     10 ≤ jsRound (SmartDecisionEngine.calculateFinalConfidence b s a d * 100) ∧
     jsRound (SmartDecisionEngine.calculateFinalConfidence b s a d * 100) ≤ 95) ∧
    (1 / 10 ≤ EnhancedTradingEngine.calculateDynamicConfidence sig ind ∧
     EnhancedTradingEngine.calculateDynamicConfidence sig ind ≤ 19 / 20 ∧
     10 ≤ jsRound (EnhancedTradingEngine.calculateDynamicConfidence sig ind * 100) ∧
     jsRound (EnhancedTradingEngine.calculateDynamicConfidence sig ind * 100) ≤ 95) := by
  have hsd : ∃ c : ℚ, SmartDecisionEngine.calculateFinalConfidence b s a d =
      max 0.1 (min 0.95 c) := by
    exact ⟨_, rfl⟩
  have het : ∃ c : ℚ, EnhancedTradingEngine.calculateDynamicConfidence sig ind =
      max 0.1 (min 0.95 c) := by
    exact ⟨_, rfl⟩
  obtain ⟨c1, hc1⟩ := hsd
  obtain ⟨c2, hc2⟩ := het
  rw [hc1, hc2]
  obtain ⟨l1, u1⟩ := clamp_bounds c1
  obtain ⟨l2, u2⟩ := clamp_bounds c2
  have p1 := jsRound_bounds
    (by push_cast; linarith : ((10 : ℤ) : ℚ) ≤ max 0.1 (min 0.95 c1) * 100)
    (by push_cast; linarith : max 0.1 (min 0.95 c1) * 100 ≤ ((95 : ℤ) : ℚ))
  have p2 := jsRound_bounds
    (by push_cast; linarith : ((10 : ℤ) : ℚ) ≤ max 0.1 (min 0.95 c2) * 100)
    (by push_cast; linarith : max 0.1 (min 0.95 c2) * 100 ≤ ((95 : ℤ) : ℚ))
  exact ⟨⟨l1, u1, p1.1, p1.2⟩, ⟨l2, u2, p2.1, p2.2⟩⟩

/-- **C2.** Whenever the agreement score between the two sources is
strictly below the 0.6 threshold, `SmartDecisionEngine.determineAction`
returns HOLD regardless of the directional signal strength. -/
theorem low_agreement_forces_hold (signalStrength agreement : ℚ)
    (h : agreement < 0.6) :
    SmartDecisionEngine.determineAction signalStrength agreement = TradeAction.HOLD := by
  unfold SmartDecisionEngine.determineAction
  rw [if_pos h]

/-- Witness for C2: a maximally bullish signal strength with agreement 0.4
still yields HOLD. -/
theorem low_agreement_forces_hold_witness :
    ((2 : ℚ) / 5 < 0.6) ∧
    SmartDecisionEngine.determineAction 1 (2 / 5) = TradeAction.HOLD :=
  ⟨by norm_num, low_agreement_forces_hold 1 (2 / 5) (by norm_num)⟩

/-- **C3.** At the concrete close series [100, 110] — and on every input —
`EnhancedTradingEngine.calculateMACD` sets the signal line to
`calculateEMA ([macd], 9)`, the EMA of the one-element macd list, so the
signal equals the latest macd value and the histogram is identically zero
even though the macd value itself is nonzero here; the signal line never
smooths a series of macd values. -/
theorem macd_signal_equals_latest_macd :
    (EnhancedTradingEngine.calculateMACD [100, 110]).signal =
      (EnhancedTradingEngine.calculateMACD [100, 110]).macd ∧
    (EnhancedTradingEngine.calculateMACD [100, 110]).histogram = 0 ∧
    (EnhancedTradingEngine.calculateMACD [100, 110]).macd ≠ 0 := by
  refine ⟨rfl, ?_, ?_⟩ <;>
    norm_num [EnhancedTradingEngine.calculateMACD, EnhancedTradingEngine.calculateEMA]

/-- Strength of an analyzed signal is an absolute value, hence
non-negative. -/
lemma analyzeSignal_strength_nonneg (ind : EnhancedTradingEngine.ETIndicators) :
    0 ≤ (EnhancedTradingEngine.analyzeSignal ind).strength := by
  unfold EnhancedTradingEngine.analyzeSignal
  exact abs_nonneg _

/-- **C10.** For every indicator set, the structured-signal engine's
dynamic confidence starts at the 0.5 base and only gains non-negative
bonuses before the [0.1, 0.95] cap, so it lies in [0.5, 0.95] and the
confidence percentage reported by `generateStructuredSignal`
(`structuredSignalConfidencePct`) always lies in [50, 95] — a strictly
tighter floor than the documented minimum of 10. -/
theorem structured_signal_confidence_in_50_95 (ind : EnhancedTradingEngine.ETIndicators) :
    1 / 2 ≤ EnhancedTradingEngine.calculateDynamicConfidence
      (EnhancedTradingEngine.analyzeSignal ind) ind ∧
    EnhancedTradingEngine.calculateDynamicConfidence
      (EnhancedTradingEngine.analyzeSignal ind) ind ≤ 19 / 20 ∧
    50 ≤ EnhancedTradingEngine.structuredSignalConfidencePct ind ∧
    EnhancedTradingEngine.structuredSignalConfidencePct ind ≤ 95 := by
  have hs := analyzeSignal_strength_nonneg ind
  have hmul : (0 : ℚ) ≤ (EnhancedTradingEngine.analyzeSignal ind).strength * 0.3 :=
    mul_nonneg hs (by norm_num)
  have hlow : 1 / 2 ≤ EnhancedTradingEngine.calculateDynamicConfidence
      (EnhancedTradingEngine.analyzeSignal ind) ind := by
    unfold EnhancedTradingEngine.calculateDynamicConfidence
    refine le_trans ?_ (le_max_right _ _)
    refine le_min (by norm_num) ?_
    split_ifs <;> linarith
  have hhigh : EnhancedTradingEngine.calculateDynamicConfidence
      (EnhancedTradingEngine.analyzeSignal ind) ind ≤ 19 / 20 := by
    unfold EnhancedTradingEngine.calculateDynamicConfidence
    exact (clamp_bounds _).2
  have hpct := jsRound_bounds
    (by push_cast; linarith : ((50 : ℤ) : ℚ) ≤ EnhancedTradingEngine.calculateDynamicConfidence
      (EnhancedTradingEngine.analyzeSignal ind) ind * 100)
    (by push_cast; linarith : EnhancedTradingEngine.calculateDynamicConfidence
      (EnhancedTradingEngine.analyzeSignal ind) ind * 100 ≤ ((95 : ℤ) : ℚ))
  exact ⟨hlow, hhigh, hpct.1, hpct.2⟩

/-- **C5 counterexample.** With the secondary source absent, the pipeline's
result carries `agreement = 0`, not the claimed agreement score of 1 (and
the returned record has no degraded marker — it is the plain neutral
signal). -/
theorem single_source_not_full_agreement :
    (SmartDecisionEngine.generateIntelligentSignal "AAPL"
        (some ⟨100, ⟨some 50, some 1, some 99, some 100⟩⟩) none).agreement = 0 ∧
    (SmartDecisionEngine.generateIntelligentSignal "AAPL"
        (some ⟨100, ⟨some 50, some 1, some 99, some 100⟩⟩) none).agreement ≠ 1 := by
  refine ⟨rfl, ?_⟩
  intro h
  exact absurd h (by norm_num [SmartDecisionEngine.generateIntelligentSignal,
    SmartDecisionEngine.createNeutralSignal])

/-- **C5 amended.** When either source is missing,
`generateIntelligentSignal` returns the neutral signal: action HOLD,
`agreement = 0` (not 1), `priceDiscrepancy = 0`, confidence 0.5, and no
degraded marker (the returned record is exactly
`createNeutralSignal symbol "Insufficient data"`). -/
theorem single_source_returns_neutral_signal (symbol : String)
    (md : Option SmartDecisionEngine.MarketData)
    (pd : Option SmartDecisionEngine.PocketData) :
    SmartDecisionEngine.generateIntelligentSignal symbol md none =
      SmartDecisionEngine.createNeutralSignal symbol "Insufficient data" ∧
    SmartDecisionEngine.generateIntelligentSignal symbol none pd =
      SmartDecisionEngine.createNeutralSignal symbol "Insufficient data" ∧
    (SmartDecisionEngine.createNeutralSignal symbol "Insufficient data").action =
      TradeAction.HOLD ∧
    (SmartDecisionEngine.createNeutralSignal symbol "Insufficient data").agreement = 0 ∧
    (SmartDecisionEngine.createNeutralSignal symbol "Insufficient data").priceDiscrepancy = 0 ∧
    (SmartDecisionEngine.createNeutralSignal symbol "Insufficient data").confidence = 0.5 := by
  refine ⟨?_, ?_, rfl, rfl, rfl, rfl⟩
  · cases md <;> rfl
  · cases pd <;> rfl

/-- **C6 counterexample.** At the one-price window [100] — far below the
documented RSI lookback of period + 1 = 15 — `calculateRSI` returns the
value 100 instead of failing with `InsufficientDataError` (no code path in
the indicator library raises any error). -/
theorem short_window_rsi_returns_value :
    List.length [(100 : ℚ)] < 14 + 1 ∧
    EnhancedTradingEngine.calculateRSI [100] 14 = 100 := by
  refine ⟨by norm_num, ?_⟩
  simp [EnhancedTradingEngine.calculateRSI, EnhancedTradingEngine.lastSlice]

/-- **C6 amended.** The indicator computations perform no window-length
validation and return numeric values on windows shorter than every
documented lookback: RSI of a single-price window is 100 (its empty
gain/loss lists average to 0 and the zero-loss branch fires), and SMA of a
single-price window is that price (the mean of whatever closes exist). -/
theorem short_window_indicators_return_values (p : ℚ) :
    EnhancedTradingEngine.calculateRSI [p] 14 = 100 ∧
    EnhancedTradingEngine.calculateSMA [p] 20 = p := by
  constructor
  · simp [EnhancedTradingEngine.calculateRSI, EnhancedTradingEngine.lastSlice]
  · simp [EnhancedTradingEngine.calculateSMA, EnhancedTradingEngine.lastSlice]

/-- **C4 counterexample.** On a window whose trailing maximum high equals
its trailing minimum low (one flat bar), `calculateStochastic` is not
guarded: it divides zero by zero and yields `NaN`, not the claimed 0. -/
theorem stochastic_flat_window_is_nan :
    EnhancedTradingEngine.calculateStochastic [⟨100, 100, 100, 100, 1000⟩] 14 = JSNum.nan ∧
    JSNum.nan ≠ JSNum.num 0 := by
  constructor
  · norm_num [EnhancedTradingEngine.calculateStochastic, EnhancedTradingEngine.lastSlice,
      EnhancedTradingEngine.lowestLow, EnhancedTradingEngine.highestHigh, jsDiv, jsMul100]
  · decide

/-- **C4 amended.** On every window whose trailing maximum high equals its
trailing minimum low, `calculateStochastic` divides by zero and returns
`NaN` (when the last close equals that common value) or `±Infinity`
(otherwise) — never the finite value 0 the spec defines. -/
theorem stochastic_flat_window_divides_by_zero
    (data : List EnhancedTradingEngine.Bar) (q : ℚ) (lastBar : EnhancedTradingEngine.Bar)
    (hlow : EnhancedTradingEngine.lowestLow (EnhancedTradingEngine.lastSlice data 14) = some q)
    (hhigh : EnhancedTradingEngine.highestHigh (EnhancedTradingEngine.lastSlice data 14) = some q)
    (hlast : data.getLast? = some lastBar) :
    EnhancedTradingEngine.calculateStochastic data 14 = JSNum.nan ∨
    EnhancedTradingEngine.calculateStochastic data 14 = JSNum.inf ∨
    EnhancedTradingEngine.calculateStochastic data 14 = JSNum.negInf := by
  simp only [EnhancedTradingEngine.calculateStochastic, hlow, hhigh, hlast]
  have hz : q - q = 0 := sub_self q
  rw [hz]
  by_cases h1 : lastBar.close - q = 0
  · left
    simp [jsDiv, h1, jsMul100]
  · by_cases h2 : 0 < lastBar.close - q
    · right; left
      simp [jsDiv, h1, h2, jsMul100]
    · right; right
      simp [jsDiv, h1, h2, jsMul100]

/-- Witness for the amended C4: a single bar with high = low = 100 and a
close above them yields `+Infinity`. -/
theorem stochastic_flat_window_divides_by_zero_witness :
    EnhancedTradingEngine.calculateStochastic [⟨99, 100, 100, 101, 7⟩] 14 = JSNum.nan ∨
    EnhancedTradingEngine.calculateStochastic [⟨99, 100, 100, 101, 7⟩] 14 = JSNum.inf ∨
    EnhancedTradingEngine.calculateStochastic [⟨99, 100, 100, 101, 7⟩] 14 = JSNum.negInf :=
  stochastic_flat_window_divides_by_zero [⟨99, 100, 100, 101, 7⟩] 100 ⟨99, 100, 100, 101, 7⟩
    (by decide) (by decide) (by decide)

/-- `jsRound` is monotone. -/
lemma jsRound_mono {a b : ℚ} (h : a ≤ b) : jsRound a ≤ jsRound b := by
  unfold jsRound
  exact Int.floor_le_floor (by linarith)

/-- Two-decimal rounding is monotone. -/
lemma roundTo2_mono {a b : ℚ} (h : a ≤ b) : roundTo2 a ≤ roundTo2 b := by
  unfold roundTo2
  have h1 := jsRound_mono (by linarith : a * 100 ≤ b * 100)
  have h2 : ((jsRound (a * 100) : ℤ) : ℚ) ≤ ((jsRound (b * 100) : ℤ) : ℚ) := by
    exact_mod_cast h1
  linarith

/-- Two-decimal rounding is exact on prices with at most two decimals. -/
lemma roundTo2_exact {p : ℚ} (h : (p * 100).den = 1) : roundTo2 p = p := by
  have hnum : ((p * 100).num : ℚ) = p * 100 := Rat.coe_int_num_of_den_eq_one h
  unfold roundTo2 jsRound
  rw [← hnum]
  have hfl : ⌊((p * 100).num : ℚ) + 1 / 2⌋ = (p * 100).num := by
    rw [add_comm, Int.floor_add_int]
    norm_num
  rw [hfl, hnum]
  linarith

/-- **C7.** For every action and every non-negative volatility (with a
non-negative current price), the entry zone of `calculateEntryExitZones`
satisfies low ≤ high; and when the action is HOLD the target and the
stop-loss coincide and both are the current price (as reported at two
decimals — exactly the current price whenever it has at most two
decimals). -/
theorem entry_zone_ordered_and_hold_pegged (p v : ℚ) (a : TradeAction)
    (hp : 0 ≤ p) (hv : 0 ≤ v) :
    (EnhancedTradingEngine.calculateEntryExitZones p v a).entryLow ≤
      (EnhancedTradingEngine.calculateEntryExitZones p v a).entryHigh ∧
    (a = TradeAction.HOLD →
      (EnhancedTradingEngine.calculateEntryExitZones p v a).target =
        (EnhancedTradingEngine.calculateEntryExitZones p v a).stopLoss ∧
      (EnhancedTradingEngine.calculateEntryExitZones p v a).target = roundTo2 p ∧
      ((p * 100).den = 1 →
        (EnhancedTradingEngine.calculateEntryExitZones p v a).target = p)) := by
  have hpv : 0 ≤ p * v := mul_nonneg hp hv
  cases a with
  | BUY =>
    refine ⟨?_, fun h => absurd h (by decide)⟩
    apply roundTo2_mono
    nlinarith
  | SELL =>
    refine ⟨?_, fun h => absurd h (by decide)⟩
    apply roundTo2_mono
    nlinarith
  | HOLD =>
    refine ⟨?_, fun _ => ⟨rfl, rfl, fun hden => roundTo2_exact hden⟩⟩
    apply roundTo2_mono
    nlinarith

/-- Witness for C7 at price 100, volatility 1/100 and action HOLD. -/
theorem entry_zone_ordered_and_hold_pegged_witness :
    ((0 : ℚ) ≤ 100 ∧ (0 : ℚ) ≤ 1 / 100) ∧
    ((EnhancedTradingEngine.calculateEntryExitZones 100 (1 / 100) TradeAction.HOLD).entryLow ≤
      (EnhancedTradingEngine.calculateEntryExitZones 100 (1 / 100) TradeAction.HOLD).entryHigh ∧
    (TradeAction.HOLD = TradeAction.HOLD →
      (EnhancedTradingEngine.calculateEntryExitZones 100 (1 / 100) TradeAction.HOLD).target =
        (EnhancedTradingEngine.calculateEntryExitZones 100 (1 / 100) TradeAction.HOLD).stopLoss ∧
      (EnhancedTradingEngine.calculateEntryExitZones 100 (1 / 100) TradeAction.HOLD).target =
        roundTo2 100 ∧
      (((100 : ℚ) * 100).den = 1 →
        (EnhancedTradingEngine.calculateEntryExitZones 100 (1 / 100) TradeAction.HOLD).target =
          100))) :=
  ⟨⟨by norm_num, by norm_num⟩,
    entry_zone_ordered_and_hold_pegged 100 (1 / 100) TradeAction.HOLD (by norm_num) (by norm_num)⟩

/-- For a positive entry price and volatility multiplier, the unrounded
risk/reward quotient of `calculateRiskManagement` is exactly 2 for both
directional actions. -/
lemma rr_formula_eq_two (e vm : ℚ) (he : 0 < e) (hvm : 0 < vm)
    (a : TradeAction) (ha : a ≠ TradeAction.HOLD) :
    |AdvancedTradingAI.rawTakeProfit e a vm - e| /
      |e - AdvancedTradingAI.rawStopLoss e a vm| = 2 := by
  have hev : 0 < e * vm := mul_pos he hvm
  cases a with
  | HOLD => exact absurd rfl ha
  | BUY =>
    unfold AdvancedTradingAI.rawTakeProfit AdvancedTradingAI.rawStopLoss
    have h1 : e * (1 + vm * 2) - e = e * vm * 2 := by ring
    have h2 : e - e * (1 - vm) = e * vm := by ring
    rw [h1, h2, abs_of_pos (by linarith), abs_of_pos hev]
    exact mul_div_cancel_left₀ 2 (ne_of_gt hev)
  | SELL =>
    unfold AdvancedTradingAI.rawTakeProfit AdvancedTradingAI.rawStopLoss
    have h1 : e * (1 - vm * 2) - e = -(e * vm * 2) := by ring
    have h2 : e - e * (1 + vm) = -(e * vm) := by ring
    rw [h1, h2, abs_neg, abs_neg, abs_of_pos (by linarith), abs_of_pos hev]
    exact mul_div_cancel_left₀ 2 (ne_of_gt hev)

/-- One-decimal rounding of 2 is 2. -/
lemma roundTo1_two : roundTo1 2 = 2 := by
  norm_num [roundTo1, jsRound]

/-- **C8.** For a positive entry price, the reported risk/reward ratio of
`calculateRiskManagement` is 0 exactly when the action is HOLD; for BUY
and SELL it equals |takeProfit − entry| / |entry − stopLoss| (computed on
the unrounded levels, as the source does) and is strictly positive. -/
theorem risk_reward_zero_iff_hold (e v : ℚ) (a : TradeAction) (he : 0 < e) :
    ((AdvancedTradingAI.calculateRiskManagement e a v).rr = 0 ↔ a = TradeAction.HOLD) ∧
    (a ≠ TradeAction.HOLD →
      (AdvancedTradingAI.calculateRiskManagement e a v).rr =
        |AdvancedTradingAI.rawTakeProfit e a (max (v * 2) 0.02) - e| /
          |e - AdvancedTradingAI.rawStopLoss e a (max (v * 2) 0.02)| ∧
      0 < (AdvancedTradingAI.calculateRiskManagement e a v).rr) := by
  have hvm : (0 : ℚ) < max (v * 2) 0.02 :=
    lt_of_lt_of_le (by norm_num) (le_max_right _ _)
  cases a with
  | HOLD =>
    exact ⟨⟨fun _ => rfl, fun _ => rfl⟩, fun h => absurd rfl h⟩
  | BUY =>
    have key := rr_formula_eq_two e (max (v * 2) 0.02) he hvm TradeAction.BUY (by decide)
    have hrr : (AdvancedTradingAI.calculateRiskManagement e TradeAction.BUY v).rr =
        roundTo1 (|AdvancedTradingAI.rawTakeProfit e TradeAction.BUY (max (v * 2) 0.02) - e| /
          |e - AdvancedTradingAI.rawStopLoss e TradeAction.BUY (max (v * 2) 0.02)|) := rfl
    rw [key, roundTo1_two] at hrr
    refine ⟨?_, fun _ => ⟨?_, ?_⟩⟩
    · rw [hrr]
      exact ⟨fun h => absurd h (by norm_num), fun h => absurd h (by decide)⟩
    · rw [hrr, key]
    · rw [hrr]
      norm_num
  | SELL =>
    have key := rr_formula_eq_two e (max (v * 2) 0.02) he hvm TradeAction.SELL (by decide)
    have hrr : (AdvancedTradingAI.calculateRiskManagement e TradeAction.SELL v).rr =
        roundTo1 (|AdvancedTradingAI.rawTakeProfit e TradeAction.SELL (max (v * 2) 0.02) - e| /
          |e - AdvancedTradingAI.rawStopLoss e TradeAction.SELL (max (v * 2) 0.02)|) := rfl
    rw [key, roundTo1_two] at hrr
    refine ⟨?_, fun _ => ⟨?_, ?_⟩⟩
    · rw [hrr]
      exact ⟨fun h => absurd h (by norm_num), fun h => absurd h (by decide)⟩
    · rw [hrr, key]
    · rw [hrr]
      norm_num

/-- Witness for C8 at entry price 100, volatility 1/100 and action BUY. -/
theorem risk_reward_zero_iff_hold_witness :
    ((0 : ℚ) < 100) ∧
    (((AdvancedTradingAI.calculateRiskManagement 100 TradeAction.BUY (1 / 100)).rr = 0 ↔
        TradeAction.BUY = TradeAction.HOLD) ∧
      (TradeAction.BUY ≠ TradeAction.HOLD →
        (AdvancedTradingAI.calculateRiskManagement 100 TradeAction.BUY (1 / 100)).rr =
          |AdvancedTradingAI.rawTakeProfit 100 TradeAction.BUY (max (1 / 100 * 2) 0.02) - 100| /
            |100 - AdvancedTradingAI.rawStopLoss 100 TradeAction.BUY (max (1 / 100 * 2) 0.02)| ∧
        0 < (AdvancedTradingAI.calculateRiskManagement 100 TradeAction.BUY (1 / 100)).rr)) :=
  ⟨by norm_num, risk_reward_zero_iff_hold 100 (1 / 100) TradeAction.BUY (by norm_num)⟩

/-- **C9 counterexample.** With an absent market feed the upstream property
access raises the modelled `TypeError`, yet `generateTradeRecommendation`
emits a decision object — the safe HOLD recommendation with confidence
50 — and surfaces no error kind to the caller. -/
theorem error_swallowed_into_substitute_decision :
    AdvancedTradingAI.tradeRecommendationPipeline "AAPL" none none ⟨1 / 2, 0⟩ =
      Except.error AdvancedTradingAI.JsError.typeError ∧
    AdvancedTradingAI.generateTradeRecommendation "AAPL" none none ⟨1 / 2, 0⟩ =
      AdvancedTradingAI.createSafeRecommendation "AAPL" ∧
    (AdvancedTradingAI.createSafeRecommendation "AAPL").action = TradeAction.HOLD ∧
    (AdvancedTradingAI.createSafeRecommendation "AAPL").confidence = 50 :=
  ⟨rfl, rfl, rfl, rfl⟩

/-- **C9 amended.** Whenever any upstream component of the recommendation
pipeline raises an error, `generateTradeRecommendation` catches it and
returns `createSafeRecommendation` — a substitute HOLD decision — instead
of surfacing the error to the caller. -/
theorem upstream_error_yields_substitute (symbol : String)
    (md : Option AdvancedTradingAI.MD9) (pd : Option AdvancedTradingAI.PD9)
    (rp : AdvancedTradingAI.RecentPerformance) (e : AdvancedTradingAI.JsError)
    (h : AdvancedTradingAI.tradeRecommendationPipeline symbol md pd rp = Except.error e) :
    AdvancedTradingAI.generateTradeRecommendation symbol md pd rp =
      AdvancedTradingAI.createSafeRecommendation symbol := by
  unfold AdvancedTradingAI.generateTradeRecommendation
  rw [h]

/-- Witness for the amended C9: the erroring pipeline on absent inputs
yields exactly the safe recommendation. -/
theorem upstream_error_yields_substitute_witness :
    AdvancedTradingAI.tradeRecommendationPipeline "TSLA" none none ⟨1 / 2, 0⟩ =
      Except.error AdvancedTradingAI.JsError.typeError ∧
    AdvancedTradingAI.generateTradeRecommendation "TSLA" none none ⟨1 / 2, 0⟩ =
      AdvancedTradingAI.createSafeRecommendation "TSLA" :=
  ⟨rfl, upstream_error_yields_substitute "TSLA" none none ⟨1 / 2, 0⟩
    AdvancedTradingAI.JsError.typeError rfl⟩
